import Mathlib

set_option maxHeartbeats 1000000
set_option maxRecDepth 4000

/-! Shallow embedding of the RP2350 button driver core: the configuration
constants of `src/config.rs`, the debouncing button state machine of
`src/button.rs`, and the LED controller of `src/led.rs`. Rust methods that
mutate `self` are modelled as functions from the controller state to a new
controller state (paired with the returned value where the method returns
one); `u32`/`u64` counters are modelled as `Nat` (the only unguarded
increment, `press_count`, gains at most one per call, so it cannot reach
the `u64` bound from construction within any feasible call sequence, and
every guarded counter is bounded by its threshold). -/

/-- Default debounce delay in milliseconds (config.rs, `DEBOUNCE_DELAY_MS`). -/
def DEBOUNCE_DELAY_MS : Nat := 5

/-- Minimum allowed debounce delay in milliseconds (config.rs). -/
def MIN_DEBOUNCE_DELAY_MS : Nat := 1

/-- Maximum allowed debounce delay in milliseconds (config.rs). -/
def MAX_DEBOUNCE_DELAY_MS : Nat := 100

/-- Default debounce sample count threshold (config.rs, `DEBOUNCE_COUNT`). -/
def DEBOUNCE_COUNT : Nat := 5

/-- Default blink delay in milliseconds (config.rs, `BLINK_DELAY_MS`). -/
def BLINK_DELAY_MS : Nat := 500

/-- Button state enumeration (button.rs). -/
inductive ButtonState
  | Pressed
  | Released
deriving DecidableEq

/-- Button event enumeration (button.rs). -/
inductive ButtonEvent
  | Pressed
  | Released
  | None
deriving DecidableEq

/-- LED state enumeration as defined inside button.rs. -/
inductive LedState
  | On
  | Off
deriving DecidableEq

/-- Button controller record (button.rs, `ButtonController`). -/
structure ButtonController where
  state : ButtonState
  raw_state : ButtonState
  debounce_count : Nat
  debounce_threshold : Nat
  debounce_delay_ms : Nat
  press_count : Nat
  led_state : LedState
deriving DecidableEq

/-- Clamps a debounce delay into the valid range (button.rs,
`clamp_debounce_delay`, via Rust `u64::clamp`). -/
def clamp_debounce_delay (delay_ms : Nat) : Nat :=
  if delay_ms < MIN_DEBOUNCE_DELAY_MS then MIN_DEBOUNCE_DELAY_MS
  else if delay_ms > MAX_DEBOUNCE_DELAY_MS then MAX_DEBOUNCE_DELAY_MS
  else delay_ms

/-- Converts a boolean GPIO level to a button state; active-low
(button.rs, `gpio_to_button_state`). -/
def gpio_to_button_state (gpio_level : Bool) : ButtonState :=
  if gpio_level then ButtonState.Released else ButtonState.Pressed

/-- Converts an LED state to a boolean GPIO level (button.rs,
`led_state_to_level`). -/
def led_state_to_level (state : LedState) : Bool :=
  match state with
  | LedState.On => true
  | LedState.Off => false

/-- Initial button controller state (button.rs, `create_initial`). -/
def ButtonController.create_initial : ButtonController :=
  { state := ButtonState.Released
    raw_state := ButtonState.Released
    debounce_count := 0
    debounce_threshold := DEBOUNCE_COUNT
    debounce_delay_ms := DEBOUNCE_DELAY_MS
    press_count := 0
    led_state := LedState.Off }

/-- Default button controller (button.rs, `new` via `Default`). -/
def ButtonController.new : ButtonController :=
  ButtonController.create_initial

/-- Button controller with custom debounce settings (button.rs,
`with_debounce`). -/
def ButtonController.with_debounce (debounce_delay_ms : Nat) (debounce_threshold : Nat) : ButtonController :=
  { state := ButtonState.Released
    raw_state := ButtonState.Released
    debounce_count := 0
    debounce_threshold := debounce_threshold
    debounce_delay_ms := clamp_debounce_delay debounce_delay_ms
    press_count := 0
    led_state := LedState.Off }

/-- Debounce counter step (button.rs, `update_debounce_counter`). -/
def ButtonController.update_debounce_counter (s : ButtonController) (new_raw_state : ButtonState) : ButtonController :=
  if new_raw_state = s.raw_state then
    if s.debounce_count < s.debounce_threshold then
      { s with debounce_count := s.debounce_count + 1 }
    else s
  else
    { s with raw_state := new_raw_state, debounce_count := 0 }

/-- Press-edge handler (button.rs, `handle_press_event`). -/
def ButtonController.handle_press_event (s : ButtonController) : ButtonEvent × ButtonController :=
  (ButtonEvent.Pressed,
   { s with press_count := s.press_count + 1, led_state := LedState.On })

/-- Release-edge handler (button.rs, `handle_release_event`). -/
def ButtonController.handle_release_event (s : ButtonController) : ButtonEvent × ButtonController :=
  (ButtonEvent.Released, { s with led_state := LedState.Off })

/-- Transition event dispatch (button.rs, `handle_transition_event`). -/
def ButtonController.handle_transition_event (s : ButtonController) (old_state new_state : ButtonState) : ButtonEvent × ButtonController :=
  match old_state, new_state with
  | ButtonState.Released, ButtonState.Pressed => s.handle_press_event
  | ButtonState.Pressed, ButtonState.Released => s.handle_release_event
  | _, _ => (ButtonEvent.None, s)

/-- Commits a debounced state transition (button.rs, `apply_state_transition`). -/
def ButtonController.apply_state_transition (s : ButtonController) : ButtonEvent × ButtonController :=
  let old_state := s.state
  let s1 := { s with state := s.raw_state }
  s1.handle_transition_event old_state s1.state

/-- Transition check (button.rs, `check_state_transition`). -/
def ButtonController.check_state_transition (s : ButtonController) : ButtonEvent × ButtonController :=
  if s.debounce_threshold ≤ s.debounce_count ∧ s.state ≠ s.raw_state then
    s.apply_state_transition
  else
    (ButtonEvent.None, s)

/-- Processes one raw GPIO sample (button.rs, `update`). -/
def ButtonController.update (s : ButtonController) (gpio_level : Bool) : ButtonEvent × ButtonController :=
  let new_raw_state := gpio_to_button_state gpio_level
  let s1 := s.update_debounce_counter new_raw_state
  s1.check_state_transition

/-- Sets a new debounce delay, clamped (button.rs, `set_debounce_delay`). -/
def ButtonController.set_debounce_delay (s : ButtonController) (delay_ms : Nat) : ButtonController :=
  { s with debounce_delay_ms := clamp_debounce_delay delay_ms }

/-- Sets a new debounce threshold (button.rs, `set_debounce_threshold`). -/
def ButtonController.set_debounce_threshold (s : ButtonController) (threshold : Nat) : ButtonController :=
  { s with debounce_threshold := threshold }

/-- Resets the controller to its initial dynamic state (button.rs, `reset`). -/
def ButtonController.reset (s : ButtonController) : ButtonController :=
  { s with
    state := ButtonState.Released
    raw_state := ButtonState.Released
    debounce_count := 0
    press_count := 0
    led_state := LedState.Off }

/-- Final controller state after feeding a list of GPIO samples to `update`. -/
def runUpdates (s : ButtonController) : List Bool → ButtonController
  | [] => s
  | b :: l => runUpdates (s.update b).2 l

/-- Event sequence produced by feeding a list of GPIO samples to `update`. -/
def eventsOf (s : ButtonController) : List Bool → List ButtonEvent
  | [] => []
  | b :: l => (s.update b).1 :: eventsOf (s.update b).2 l

/-- Length of the maximal leading run of samples equal to `b`. -/
def leadRun (b : Bool) : List Bool → Nat
  | [] => 0
  | c :: l => if c = b then leadRun b l + 1 else 0

/-- Whether the sample list contains five consecutive equal samples. -/
def hasRunOfFive : List Bool → Bool
  | [] => false
  | b :: l => if 4 ≤ leadRun b l then true else hasRunOfFive l

/-- Public mutating operations of `ButtonController` other than
`set_debounce_threshold`: a raw-sample update, a delay change, or a reset. -/
inductive Op
  | upd (b : Bool)
  | setDelay (d : Nat)
  | reset

/-- Applies one public operation to a controller state. -/
def applyOp (s : ButtonController) : Op → ButtonController
  | Op.upd b => (s.update b).2
  | Op.setDelay d => s.set_debounce_delay d
  | Op.reset => s.reset

/-- Applies a list of public operations left to right. -/
def applyOps (s : ButtonController) : List Op → ButtonController
  | [] => s
  | o :: l => applyOps (applyOp s o) l

namespace Led

/-- LED state enumeration (led.rs). -/
inductive LedState
  | On
  | Off
deriving DecidableEq

/-- LED controller record (led.rs, `LedController`). -/
structure LedController where
  state : LedState
  delay_ms : Nat
deriving DecidableEq

/-- Default LED controller (led.rs, `new`). -/
def LedController.new : LedController :=
  { state := LedState.Off, delay_ms := BLINK_DELAY_MS }

/-- Toggles the LED state and returns the new state (led.rs, `toggle`). -/
def LedController.toggle (c : LedController) : LedState × LedController :=
  let s :=
    match c.state with
    | LedState.On => LedState.Off
    | LedState.Off => LedState.On
  (s, { c with state := s })

/-- Applies `toggle` to the controller state `n` times. -/
def toggleN : Nat → LedController → LedController
  | 0, c => c
  | n + 1, c => toggleN n (c.toggle).2

end Led

/-- Property used for the amended saturation claim: after feeding n
consecutive pressed samples from the initial state, the debounce counter is
at most 5, and from the 6th sample on the debounced state is Pressed. -/
def saturationProp (n : Nat) : Prop :=
  (runUpdates ButtonController.new (List.replicate n false)).debounce_count ≤ 5 ∧
    (6 ≤ n →
      (runUpdates ButtonController.new (List.replicate n false)).state = ButtonState.Pressed)

instance : DecidablePred saturationProp := fun n => by
  unfold saturationProp
  infer_instance

/-- LED level that mirrors a given debounced button state. -/
def mirrorLed (st : ButtonState) : LedState :=
  match st with
  | ButtonState.Pressed => LedState.On
  | ButtonState.Released => LedState.Off

/-- Claim C1 counterexample: with threshold 3 from the initial state, three
consecutive pressed samples yield None, None, None — not None, None, Pressed
as claimed, because the first differing sample resets the counter to 0. -/
theorem c1_threshold_commit_counterexample :
    eventsOf (ButtonController.with_debounce 5 3) [false, false, false] ≠
      [ButtonEvent.None, ButtonEvent.None, ButtonEvent.Pressed] := by
  decide

/-- Claim C1 (amended): with threshold 3 from the initial state, the first
three consecutive pressed samples all yield None, the fourth yields Pressed,
and a fifth consecutive pressed sample yields None (already committed). -/
theorem c1_threshold_commit_amended :
    eventsOf (ButtonController.with_debounce 5 3) [false, false, false, false, false] =
      [ButtonEvent.None, ButtonEvent.None, ButtonEvent.None, ButtonEvent.Pressed,
       ButtonEvent.None] := by
  decide

/-- Claim C2 counterexample: with threshold 1 from the initial state
(debounced state Released), a pressed sample differs from the debounced state
yet update returns None rather than committing on that same call, because the
differing sample resets the counter to 0 and 0 < 1. -/
theorem c2_immediate_commit_counterexample :
    gpio_to_button_state false ≠ (ButtonController.with_debounce 5 1).state ∧
      ((ButtonController.with_debounce 5 1).update false).1 = ButtonEvent.None := by
  decide

/-- Claim C3 counterexample: with threshold 5 from the initial state, after
the 5th consecutive pressed sample the debounced state is still Released, not
Pressed as claimed; the transition commits on the 6th call. -/
theorem c3_saturation_counterexample :
    ¬ (runUpdates ButtonController.new (List.replicate 5 false)).state =
        ButtonState.Pressed := by
  decide

/-- Claim C4 counterexample: the state reached from a fresh controller by one
update followed by set_debounce_threshold 0 has debounce_count 1 exceeding
debounce_threshold 0, so the invariant fails for sequences that include
set_debounce_threshold. -/
theorem c4_invariant_counterexample :
    ¬ (((ButtonController.new.update true).2.set_debounce_threshold 0).debounce_count ≤
        ((ButtonController.new.update true).2.set_debounce_threshold 0).debounce_threshold) := by
  decide

/-- Claim C7: clamp_debounce_delay always lands in [MIN_DEBOUNCE_DELAY_MS,
MAX_DEBOUNCE_DELAY_MS] and is idempotent, and both with_debounce and
set_debounce_delay store exactly the clamped value, coercing out-of-range
inputs rather than rejecting them. -/
theorem c7_clamp_monotonicity :
    ∀ (d t : Nat) (s : ButtonController),
      MIN_DEBOUNCE_DELAY_MS ≤ clamp_debounce_delay d ∧
      clamp_debounce_delay d ≤ MAX_DEBOUNCE_DELAY_MS ∧
      clamp_debounce_delay (clamp_debounce_delay d) = clamp_debounce_delay d ∧
      (ButtonController.with_debounce d t).debounce_delay_ms = clamp_debounce_delay d ∧
      (s.set_debounce_delay d).debounce_delay_ms = clamp_debounce_delay d := by
  intro d t s
  refine ⟨?_, ?_, ?_, rfl, rfl⟩ <;>
    · unfold clamp_debounce_delay MIN_DEBOUNCE_DELAY_MS MAX_DEBOUNCE_DELAY_MS
      split_ifs <;> omega

/-- Claim C10: reset restores state, raw_state, debounce_count, press_count
and led_state to their initial values while leaving debounce_delay_ms and
debounce_threshold unchanged at their current configured values. -/
theorem c10_reset_frame :
    ∀ s : ButtonController,
      s.reset.state = ButtonState.Released ∧
      s.reset.raw_state = ButtonState.Released ∧
      s.reset.debounce_count = 0 ∧
      s.reset.press_count = 0 ∧
      s.reset.led_state = LedState.Off ∧
      s.reset.debounce_delay_ms = s.debounce_delay_ms ∧
      s.reset.debounce_threshold = s.debounce_threshold := by
  intro s
  exact ⟨rfl, rfl, rfl, rfl, rfl, rfl, rfl⟩

/-- Toggling twice returns the LED controller to its original state. -/
theorem Led.toggle_toggle (c : Led.LedController) : ((c.toggle).2.toggle).2 = c := by
  cases c with
  | mk st d => cases st <;> rfl

/-- Applying toggle an even number of times is the identity on the state. -/
theorem Led.toggleN_even (n : Nat) (c : Led.LedController) :
    Led.toggleN (2 * n) c = c := by
  induction n generalizing c with
  | zero => rfl
  | succ k ih =>
    have h2 : 2 * (k + 1) = 2 * k + 1 + 1 := by omega
    rw [h2]
    show Led.toggleN (2 * k) ((c.toggle).2.toggle).2 = c
    rw [Led.toggle_toggle]
    exact ih c

/-- Claim C8: toggle flips the level (On becomes Off and Off becomes On) and
returns the new level, toggling twice restores the original controller state,
and any even number of toggles is the identity on the state. -/
theorem c8_idempotent_toggle :
    ∀ c : Led.LedController,
      (c.toggle).1 = (c.toggle).2.state ∧
      (c.state = Led.LedState.On → (c.toggle).2.state = Led.LedState.Off) ∧
      (c.state = Led.LedState.Off → (c.toggle).2.state = Led.LedState.On) ∧
      ((c.toggle).2.toggle).2 = c ∧
      (∀ n : Nat, Led.toggleN (2 * n) c = c) := by
  intro c
  refine ⟨?_, ?_, ?_, Led.toggle_toggle c, fun n => Led.toggleN_even n c⟩ <;>
    · cases c with
      | mk st d => cases st <;> simp [Led.LedController.toggle]

/-- Claim C8 witness: instantiation of the toggle theorem at the default LED
controller and three double-toggles. -/
theorem c8_idempotent_toggle_witness :
    (Led.LedController.new.toggle).1 = (Led.LedController.new.toggle).2.state ∧
      (Led.LedController.new.state = Led.LedState.On →
        (Led.LedController.new.toggle).2.state = Led.LedState.Off) ∧
      (Led.LedController.new.state = Led.LedState.Off →
        (Led.LedController.new.toggle).2.state = Led.LedState.On) ∧
      ((Led.LedController.new.toggle).2.toggle).2 = Led.LedController.new ∧
      (∀ n : Nat, Led.toggleN (2 * n) Led.LedController.new = Led.LedController.new) :=
  c8_idempotent_toggle Led.LedController.new
/-- Claim C3 (amended): with threshold 5 from the initial state, feeding up
to 100 consecutive pressed samples never makes debounce_count exceed 5, and
the debounced state is Pressed immediately after the 6th call (not the 5th)
and for every call thereafter. -/
theorem c3_saturation_amended : ∀ n : Nat, n < 101 → saturationProp n := by
  have h : decide (∀ n : Nat, n < 101 → saturationProp n) = true := by rfl
  exact of_decide_eq_true h

/-- Claim C3 witness: the amended saturation theorem applied at 100 samples. -/
theorem c3_saturation_amended_witness : saturationProp 100 :=
  c3_saturation_amended 100 (by decide)

/-- check_state_transition never changes the debounce counter or threshold. -/
theorem check_state_transition_frame (s : ButtonController) :
    (s.check_state_transition).2.debounce_count = s.debounce_count ∧
      (s.check_state_transition).2.debounce_threshold = s.debounce_threshold := by
  obtain ⟨st, raw, cnt, th, dly, pc, led⟩ := s
  unfold ButtonController.check_state_transition ButtonController.apply_state_transition
    ButtonController.handle_transition_event ButtonController.handle_press_event
    ButtonController.handle_release_event
  cases st <;> cases raw <;> split_ifs <;> simp_all

/-- The counter/threshold invariant is preserved by each public operation
other than set_debounce_threshold. -/
theorem inv_applyOp (s : ButtonController) (o : Op)
    (h : s.debounce_count ≤ s.debounce_threshold) :
    (applyOp s o).debounce_count ≤ (applyOp s o).debounce_threshold := by
  cases o with
  | upd b =>
    show ((s.update b).2).debounce_count ≤ ((s.update b).2).debounce_threshold
    unfold ButtonController.update
    obtain ⟨h1, h2⟩ :=
      check_state_transition_frame (s.update_debounce_counter (gpio_to_button_state b))
    rw [h1, h2]
    unfold ButtonController.update_debounce_counter
    split_ifs <;> simp_all <;> omega
  | setDelay d => exact h
  | reset => exact Nat.zero_le _

/-- The counter/threshold invariant is preserved along any operation list. -/
theorem inv_applyOps (s : ButtonController) (ops : List Op)
    (h : s.debounce_count ≤ s.debounce_threshold) :
    (applyOps s ops).debounce_count ≤ (applyOps s ops).debounce_threshold := by
  induction ops generalizing s with
  | nil => exact h
  | cons o l ih => exact ih (applyOp s o) (inv_applyOp s o h)

/-- Claim C4 (amended): debounce_count ≤ debounce_threshold holds in every
state reachable from construction (new or with_debounce) by any sequence of
update, set_debounce_delay and reset; set_debounce_threshold is excluded,
since lowering the threshold below the current counter violates the bound. -/
theorem c4_invariant_amended :
    ∀ (d t : Nat) (ops : List Op),
      (applyOps (ButtonController.with_debounce d t) ops).debounce_count ≤
          (applyOps (ButtonController.with_debounce d t) ops).debounce_threshold ∧
        (applyOps ButtonController.new ops).debounce_count ≤
          (applyOps ButtonController.new ops).debounce_threshold := by
  intro d t ops
  exact ⟨inv_applyOps _ ops (Nat.zero_le _), inv_applyOps _ ops (Nat.zero_le _)⟩

/-- A leading run can only get longer when the list is extended. -/
theorem leadRun_append_le (b : Bool) (p t : List Bool) :
    leadRun b p ≤ leadRun b (p ++ t) := by
  induction p with
  | nil => exact Nat.zero_le _
  | cons c p ih =>
    show (if c = b then leadRun b p + 1 else 0) ≤ (if c = b then leadRun b (p ++ t) + 1 else 0)
    split_ifs
    · omega
    · exact Nat.le_refl 0

/-- A run of five in a prefix is a run of five in the whole list. -/
theorem hasRunOfFive_append (p t : List Bool)
    (h : hasRunOfFive (p ++ t) = false) : hasRunOfFive p = false := by
  induction p with
  | nil => rfl
  | cons c p ih =>
    have hle := leadRun_append_le c p t
    simp only [List.cons_append] at h
    unfold hasRunOfFive at h ⊢
    by_cases hx : 4 ≤ leadRun c (p ++ t)
    · rw [if_pos hx] at h
      exact absurd h (by simp)
    · rw [if_neg hx] at h
      rw [if_neg (by omega : ¬ 4 ≤ leadRun c p)]
      exact ih h

/-- Key debounce-rejection invariant: from a Released debounced state with
threshold 5, a sample list with no run of five equal samples (and, when the
tracked raw state is Pressed, not enough leading pressed samples to reach the
threshold) can never commit a transition. -/
theorem debounce_rejection_aux :
    ∀ (l : List Bool) (s : ButtonController),
      s.state = ButtonState.Released →
      s.debounce_threshold = 5 →
      hasRunOfFive l = false →
      (s.raw_state = ButtonState.Pressed → s.debounce_count + leadRun false l ≤ 4) →
      (runUpdates s l).state = ButtonState.Released := by
  intro l
  induction l with
  | nil =>
    intro s hst _ _ _
    exact hst
  | cons b l ih =>
    intro s hst hth hrun hcnt
    obtain ⟨st, raw, cnt, th, dly, pc, led⟩ := s
    simp only at hst hth hcnt
    subst hst hth
    have hrun1 : ¬ (4 ≤ leadRun b l) ∧ hasRunOfFive l = false := by
      unfold hasRunOfFive at hrun
      by_cases hx : 4 ≤ leadRun b l
      · rw [if_pos hx] at hrun
        exact absurd hrun (by simp)
      · rw [if_neg hx] at hrun
        exact ⟨hx, hrun⟩
    show (runUpdates (ButtonController.update ⟨ButtonState.Released, raw, cnt, 5, dly, pc, led⟩ b).2 l).state = ButtonState.Released
    cases b <;> cases raw
    · -- sample Pressed, raw Pressed: counter grows but stays at most 4
      have hc : cnt + (leadRun false l + 1) ≤ 4 := by
        have := hcnt rfl
        simpa [leadRun] using this
      have hlt : cnt < 5 := by omega
      have hne : ¬ (5 ≤ cnt + 1) := by omega
      apply ih
      · simp [ButtonController.update, ButtonController.update_debounce_counter,
          gpio_to_button_state, ButtonController.check_state_transition, hlt, hne]
      · simp [ButtonController.update, ButtonController.update_debounce_counter,
          gpio_to_button_state, ButtonController.check_state_transition, hlt, hne]
      · exact hrun1.2
      · intro _
        simp [ButtonController.update, ButtonController.update_debounce_counter,
          gpio_to_button_state, ButtonController.check_state_transition, hlt, hne]
        omega
    · -- sample Pressed, raw Released: raw flips, counter resets to 0
      apply ih
      · simp [ButtonController.update, ButtonController.update_debounce_counter,
          gpio_to_button_state, ButtonController.check_state_transition]
      · simp [ButtonController.update, ButtonController.update_debounce_counter,
          gpio_to_button_state, ButtonController.check_state_transition]
      · exact hrun1.2
      · intro _
        simp [ButtonController.update, ButtonController.update_debounce_counter,
          gpio_to_button_state, ButtonController.check_state_transition]
        omega
    · -- sample Released, raw Pressed: raw flips back, counter resets to 0
      apply ih
      · simp [ButtonController.update, ButtonController.update_debounce_counter,
          gpio_to_button_state, ButtonController.check_state_transition]
      · simp [ButtonController.update, ButtonController.update_debounce_counter,
          gpio_to_button_state, ButtonController.check_state_transition]
      · exact hrun1.2
      · intro hx
        simp [ButtonController.update, ButtonController.update_debounce_counter,
          gpio_to_button_state, ButtonController.check_state_transition] at hx
    · -- sample Released, raw Released: state equals raw, no transition possible
      apply ih
      · by_cases hlt : cnt < 5 <;>
          simp [ButtonController.update, ButtonController.update_debounce_counter,
            gpio_to_button_state, ButtonController.check_state_transition, hlt]
      · by_cases hlt : cnt < 5 <;>
          simp [ButtonController.update, ButtonController.update_debounce_counter,
            gpio_to_button_state, ButtonController.check_state_transition, hlt]
      · exact hrun1.2
      · intro hx
        by_cases hlt : cnt < 5 <;>
          simp [ButtonController.update, ButtonController.update_debounce_counter,
            gpio_to_button_state, ButtonController.check_state_transition, hlt] at hx
/-- Claim C5: with threshold 5 from the initial state, processing any prefix
of a sample list that contains no five consecutive equal samples leaves the
debounced state Released, i.e. the debounced state never changes. -/
theorem c5_debounce_rejection :
    ∀ (d : Nat) (p t : List Bool),
      hasRunOfFive (p ++ t) = false →
      (runUpdates (ButtonController.with_debounce d 5) p).state = ButtonState.Released := by
  intro d p t h
  apply debounce_rejection_aux
  · rfl
  · rfl
  · exact hasRunOfFive_append p t h
  · intro hx
    simp [ButtonController.with_debounce] at hx

/-- Claim C5 witness: the rejection theorem applied to the alternating
five-sample sequence pressed, released, pressed, released, pressed. -/
theorem c5_debounce_rejection_witness :
    hasRunOfFive ([false, true, false, true, false] ++ []) = false ∧
      (runUpdates (ButtonController.with_debounce 5 5)
          [false, true, false, true, false]).state = ButtonState.Released :=
  ⟨by decide, c5_debounce_rejection 5 [false, true, false, true, false] [] (by decide)⟩

/-- update is the counter step followed by the transition check. -/
theorem update_pipeline (s : ButtonController) (b : Bool) :
    s.update b =
      (s.update_debounce_counter (gpio_to_button_state b)).check_state_transition := rfl

/-- Counter step on a matching sample below threshold: increment. -/
theorem udc_same_lt (s : ButtonController) (r : ButtonState) (h : r = s.raw_state)
    (hlt : s.debounce_count < s.debounce_threshold) :
    s.update_debounce_counter r = { s with debounce_count := s.debounce_count + 1 } := by
  unfold ButtonController.update_debounce_counter
  rw [if_pos h, if_pos hlt]

/-- Counter step on a matching sample at saturation: unchanged. -/
theorem udc_same_sat (s : ButtonController) (r : ButtonState) (h : r = s.raw_state)
    (hge : ¬ s.debounce_count < s.debounce_threshold) :
    s.update_debounce_counter r = s := by
  unfold ButtonController.update_debounce_counter
  rw [if_pos h, if_neg hge]

/-- Counter step on a differing sample: track the new raw state, reset. -/
theorem udc_diff (s : ButtonController) (r : ButtonState) (h : ¬ r = s.raw_state) :
    s.update_debounce_counter r =
      { s with
        raw_state := r
        debounce_count := 0 } := by
  unfold ButtonController.update_debounce_counter
  rw [if_neg h]

/-- Transition check when the commit condition fails: no event. -/
theorem cst_none (s : ButtonController)
    (h : ¬ (s.debounce_threshold ≤ s.debounce_count ∧ s.state ≠ s.raw_state)) :
    s.check_state_transition = (ButtonEvent.None, s) := by
  unfold ButtonController.check_state_transition
  rw [if_neg h]

/-- Transition check committing a Released-to-Pressed edge. -/
theorem cst_press (s : ButtonController)
    (h1 : s.debounce_threshold ≤ s.debounce_count)
    (h2 : s.state = ButtonState.Released) (h3 : s.raw_state = ButtonState.Pressed) :
    s.check_state_transition =
      (ButtonEvent.Pressed,
        { s with
          state := ButtonState.Pressed
          press_count := s.press_count + 1
          led_state := LedState.On }) := by
  unfold ButtonController.check_state_transition ButtonController.apply_state_transition
    ButtonController.handle_transition_event ButtonController.handle_press_event
  rw [if_pos ⟨h1, by rw [h2, h3]; exact fun hx => ButtonState.noConfusion hx⟩]
  simp only [h2, h3]

/-- Transition check committing a Pressed-to-Released edge. -/
theorem cst_release (s : ButtonController)
    (h1 : s.debounce_threshold ≤ s.debounce_count)
    (h2 : s.state = ButtonState.Pressed) (h3 : s.raw_state = ButtonState.Released) :
    s.check_state_transition =
      (ButtonEvent.Released,
        { s with
          state := ButtonState.Released
          led_state := LedState.Off }) := by
  unfold ButtonController.check_state_transition ButtonController.apply_state_transition
    ButtonController.handle_transition_event ButtonController.handle_release_event
  rw [if_pos ⟨h1, by rw [h2, h3]; exact fun hx => ButtonState.noConfusion hx⟩]
  simp only [h2, h3]

/-- When the commit condition holds, the transition check emits the edge
event matching the old debounced state and adopts the raw state. -/
theorem commit_of (s1 : ButtonController)
    (hge : s1.debounce_threshold ≤ s1.debounce_count)
    (hne : s1.state ≠ s1.raw_state) :
    (s1.check_state_transition).1 =
        (if s1.state = ButtonState.Released then ButtonEvent.Pressed
         else ButtonEvent.Released) ∧
      (s1.check_state_transition).2.state = s1.raw_state := by
  cases hst : s1.state with
  | Released =>
    have hraw : s1.raw_state = ButtonState.Pressed := by
      cases hx : s1.raw_state
      · rfl
      · rw [hst, hx] at hne
        exact absurd rfl hne
    rw [cst_press s1 hge hst hraw, hraw, if_pos rfl]
    exact ⟨rfl, rfl⟩
  | Pressed =>
    have hraw : s1.raw_state = ButtonState.Released := by
      cases hx : s1.raw_state
      · rw [hst, hx] at hne
        exact absurd rfl hne
      · rfl
    rw [cst_release s1 hge hst hraw, hraw,
      if_neg (fun hx => ButtonState.noConfusion hx)]
    exact ⟨rfl, rfl⟩

/-- Claim C2 (amended): with threshold 0 every update whose sample differs
from the debounced state commits the transition on that same call, returning
the corresponding edge event; with threshold 1 such an update commits on that
same call exactly when the sample equals the tracked raw state, and returns
None when it also differs from the raw state; construction stores thresholds
0 and 1 unchanged, treating neither as an error. -/
theorem c2_immediate_commit_amended :
    ∀ (s : ButtonController) (b : Bool) (d : Nat),
      gpio_to_button_state b ≠ s.state →
      (s.debounce_threshold = 0 →
        (s.update b).1 =
            (if s.state = ButtonState.Released then ButtonEvent.Pressed
             else ButtonEvent.Released) ∧
          (s.update b).2.state = gpio_to_button_state b) ∧
      (s.debounce_threshold = 1 →
        (gpio_to_button_state b = s.raw_state →
          (s.update b).1 =
              (if s.state = ButtonState.Released then ButtonEvent.Pressed
               else ButtonEvent.Released) ∧
            (s.update b).2.state = gpio_to_button_state b) ∧
        (gpio_to_button_state b ≠ s.raw_state → (s.update b).1 = ButtonEvent.None)) ∧
      (ButtonController.with_debounce d 0).debounce_threshold = 0 ∧
      (ButtonController.with_debounce d 1).debounce_threshold = 1 := by
  intro s b d hdiff
  refine ⟨?_, ?_, rfl, rfl⟩
  · -- threshold 0: every differing sample commits on the same call
    intro hth
    rw [update_pipeline]
    by_cases hr : gpio_to_button_state b = s.raw_state
    · rw [udc_same_sat s _ hr (by omega)]
      obtain ⟨h1, h2⟩ :=
        commit_of s (by omega) (fun hx => hdiff (hr.trans hx.symm))
      exact ⟨h1, h2.trans hr.symm⟩
    · rw [udc_diff s _ hr]
      obtain ⟨h1, h2⟩ :=
        commit_of
          { s with
            raw_state := gpio_to_button_state b
            debounce_count := 0 }
          (show s.debounce_threshold ≤ 0 by omega)
          (fun hx => hdiff hx.symm)
      exact ⟨h1, h2⟩
  · -- threshold 1
    intro hth
    constructor
    · -- matching raw state: the counter reaches at least 1 and commits
      intro hr
      rw [update_pipeline]
      by_cases hlt : s.debounce_count < s.debounce_threshold
      · rw [udc_same_lt s _ hr hlt]
        obtain ⟨h1, h2⟩ :=
          commit_of
            { s with debounce_count := s.debounce_count + 1 }
            (show s.debounce_threshold ≤ s.debounce_count + 1 by omega)
            (fun hx => hdiff (hr.trans hx.symm))
        exact ⟨h1, h2.trans hr.symm⟩
      · rw [udc_same_sat s _ hr hlt]
        obtain ⟨h1, h2⟩ :=
          commit_of s (by omega) (fun hx => hdiff (hr.trans hx.symm))
        exact ⟨h1, h2.trans hr.symm⟩
    · -- differing raw state: the counter resets to 0 and nothing commits
      intro hr
      rw [update_pipeline, udc_diff s _ hr]
      rw [cst_none
        { s with
          raw_state := gpio_to_button_state b
          debounce_count := 0 }
        (fun hx => by
          have h0 : s.debounce_threshold ≤ 0 := hx.1
          omega)]

/-- Claim C2 witness: the amended theorem applied at a threshold-0 controller
and a pressed sample, which differs from the Released debounced state. -/
theorem c2_immediate_commit_amended_witness :
    gpio_to_button_state false ≠ (ButtonController.with_debounce 5 0).state ∧
      (((ButtonController.with_debounce 5 0).debounce_threshold = 0 →
        ((ButtonController.with_debounce 5 0).update false).1 =
            (if (ButtonController.with_debounce 5 0).state = ButtonState.Released
             then ButtonEvent.Pressed else ButtonEvent.Released) ∧
          ((ButtonController.with_debounce 5 0).update false).2.state =
            gpio_to_button_state false) ∧
      ((ButtonController.with_debounce 5 0).debounce_threshold = 1 →
        (gpio_to_button_state false = (ButtonController.with_debounce 5 0).raw_state →
          ((ButtonController.with_debounce 5 0).update false).1 =
              (if (ButtonController.with_debounce 5 0).state = ButtonState.Released
               then ButtonEvent.Pressed else ButtonEvent.Released) ∧
            ((ButtonController.with_debounce 5 0).update false).2.state =
              gpio_to_button_state false) ∧
        (gpio_to_button_state false ≠ (ButtonController.with_debounce 5 0).raw_state →
          ((ButtonController.with_debounce 5 0).update false).1 = ButtonEvent.None)) ∧
      (ButtonController.with_debounce 7 0).debounce_threshold = 0 ∧
      (ButtonController.with_debounce 7 1).debounce_threshold = 1) :=
  ⟨by decide,
   c2_immediate_commit_amended (ButtonController.with_debounce 5 0) false 7 (by decide)⟩

/-- A single update never decreases the press counter. -/
theorem update_press_count_le (s : ButtonController) (b : Bool) :
    s.press_count ≤ ((s.update b).2).press_count := by
  obtain ⟨st, raw, cnt, th, dly, pc, led⟩ := s
  unfold ButtonController.update ButtonController.update_debounce_counter
    ButtonController.check_state_transition ButtonController.apply_state_transition
    ButtonController.handle_transition_event ButtonController.handle_release_event
    ButtonController.handle_press_event
  cases b <;> cases st <;> cases raw <;> simp_all [gpio_to_button_state] <;>
    split_ifs <;> simp_all

/-- A sequence of updates never decreases the press counter. -/
theorem runUpdates_press_count_le (s : ButtonController) (l : List Bool) :
    s.press_count ≤ (runUpdates s l).press_count := by
  induction l generalizing s with
  | nil => exact Nat.le_refl _
  | cons b l ih => exact Nat.le_trans (update_press_count_le s b) (ih (s.update b).2)

/-- Claim C6: update increments press_count by exactly 1 when it returns
Pressed, leaves it unchanged when it returns Released or None, and hence
press_count is monotonically non-decreasing under any update sequence. -/
theorem c6_press_counting :
    ∀ (s : ButtonController) (b : Bool),
      ((s.update b).1 = ButtonEvent.Pressed →
        (s.update b).2.press_count = s.press_count + 1) ∧
      ((s.update b).1 = ButtonEvent.Released →
        (s.update b).2.press_count = s.press_count) ∧
      ((s.update b).1 = ButtonEvent.None →
        (s.update b).2.press_count = s.press_count) ∧
      (∀ l : List Bool, s.press_count ≤ (runUpdates s l).press_count) := by
  intro s b
  refine ⟨?_, ?_, ?_, runUpdates_press_count_le s⟩ <;>
    · obtain ⟨st, raw, cnt, th, dly, pc, led⟩ := s
      unfold ButtonController.update ButtonController.update_debounce_counter
        ButtonController.check_state_transition ButtonController.apply_state_transition
        ButtonController.handle_transition_event ButtonController.handle_press_event
        ButtonController.handle_release_event
      cases b <;> cases st <;> cases raw <;>
        simp_all only [gpio_to_button_state, Bool.false_eq_true, if_false, if_true,
          reduceCtorEq, reduceIte]
      all_goals try split_ifs
      all_goals simp_all

/-- Claim C6 witness: the press-counting theorem applied to the default
controller and a released sample. -/
theorem c6_press_counting_witness :
    ((ButtonController.new.update false).1 = ButtonEvent.Pressed →
      (ButtonController.new.update false).2.press_count =
        ButtonController.new.press_count + 1) ∧
    ((ButtonController.new.update false).1 = ButtonEvent.Released →
      (ButtonController.new.update false).2.press_count =
        ButtonController.new.press_count) ∧
    ((ButtonController.new.update false).1 = ButtonEvent.None →
      (ButtonController.new.update false).2.press_count =
        ButtonController.new.press_count) ∧
    (∀ l : List Bool,
      ButtonController.new.press_count ≤
        (runUpdates ButtonController.new l).press_count) :=
  c6_press_counting ButtonController.new false


/-- A Boolean reading of the LED/state coupling: the LED is On exactly for a
Pressed debounced state when the LED equals the mirror of the state. -/
theorem mirrorLed_iff (led : LedState) (st : ButtonState) :
    (led = LedState.On ↔ st = ButtonState.Pressed) ↔ led = mirrorLed st := by
  cases led <;> cases st <;> simp [mirrorLed]

/-- One update preserves the LED mirroring of the debounced state. -/
theorem led_follows_step (s : ButtonController) (b : Bool)
    (h : s.led_state = mirrorLed s.state) :
    (s.update b).2.led_state = mirrorLed (s.update b).2.state := by
  obtain ⟨st, raw, cnt, th, dly, pc, led⟩ := s
  simp only at h
  subst h
  unfold ButtonController.update ButtonController.update_debounce_counter
    ButtonController.check_state_transition ButtonController.apply_state_transition
    ButtonController.handle_transition_event ButtonController.handle_press_event
    ButtonController.handle_release_event
  cases b <;> cases st <;> cases raw <;>
    simp_all only [gpio_to_button_state, Bool.false_eq_true, if_false, if_true,
      reduceCtorEq, reduceIte]
  all_goals try split_ifs
  all_goals simp_all [mirrorLed]

/-- Any update sequence preserves the LED mirroring of the debounced state. -/
theorem led_follows_runUpdates (l : List Bool) (s : ButtonController)
    (h : s.led_state = mirrorLed s.state) :
    (runUpdates s l).led_state = mirrorLed (runUpdates s l).state := by
  induction l generalizing s with
  | nil => exact h
  | cons b l ih => exact ih (s.update b).2 (led_follows_step s b h)

/-- Claim C9: update sets led_state to On when it returns Pressed, to Off
when it returns Released, and leaves it unchanged on None; consequently for
the default controller and any update sequence, led_state is On exactly when
the debounced state is Pressed. -/
theorem c9_led_coupling :
    (∀ (s : ButtonController) (b : Bool),
      ((s.update b).1 = ButtonEvent.Pressed → (s.update b).2.led_state = LedState.On) ∧
      ((s.update b).1 = ButtonEvent.Released → (s.update b).2.led_state = LedState.Off) ∧
      ((s.update b).1 = ButtonEvent.None → (s.update b).2.led_state = s.led_state)) ∧
    (∀ l : List Bool,
      (runUpdates ButtonController.new l).led_state = LedState.On ↔
        (runUpdates ButtonController.new l).state = ButtonState.Pressed) := by
  constructor
  · intro s b
    refine ⟨?_, ?_, ?_⟩ <;>
      · obtain ⟨st, raw, cnt, th, dly, pc, led⟩ := s
        unfold ButtonController.update ButtonController.update_debounce_counter
          ButtonController.check_state_transition ButtonController.apply_state_transition
          ButtonController.handle_transition_event ButtonController.handle_press_event
          ButtonController.handle_release_event
        cases b <;> cases st <;> cases raw <;>
          simp_all only [gpio_to_button_state, Bool.false_eq_true, if_false, if_true,
            reduceCtorEq, reduceIte]
        all_goals try split_ifs
        all_goals simp_all
  · intro l
    exact (mirrorLed_iff _ _).mpr (led_follows_runUpdates l ButtonController.new rfl)

/-- Claim C9 witness: the LED-coupling theorem instantiated at the default
controller, a pressed sample, and a six-sample pressed sequence. -/
theorem c9_led_coupling_witness :
    (((ButtonController.new.update false).1 = ButtonEvent.Pressed →
        (ButtonController.new.update false).2.led_state = LedState.On) ∧
      ((ButtonController.new.update false).1 = ButtonEvent.Released →
        (ButtonController.new.update false).2.led_state = LedState.Off) ∧
      ((ButtonController.new.update false).1 = ButtonEvent.None →
        (ButtonController.new.update false).2.led_state =
          ButtonController.new.led_state)) ∧
    ((runUpdates ButtonController.new
          [false, false, false, false, false, false]).led_state = LedState.On ↔
      (runUpdates ButtonController.new
          [false, false, false, false, false, false]).state = ButtonState.Pressed) :=
  ⟨c9_led_coupling.1 ButtonController.new false,
   c9_led_coupling.2 [false, false, false, false, false, false]⟩
